import Mathlib

/-!
# Verification of the Java expression type checker

A shallow embedding of `java_type_checker/expressions.py`: the expression AST with its
`static_type` and `check_types` operations, together with theorems settling the
specification claims about them.

The type universe (`types.py`) is not part of the checked sources; following the spec
(§6, "External interfaces") it is modelled as an abstract collaborator: a table of type
descriptors plus a boolean subtype predicate.

Python exceptions are modelled by an explicit error type: `check_types` returns
`Except PyError Unit`, where `PyError` distinguishes the `JavaTypeError` class, its
three declared subclasses, and Python's built-in `AttributeError` (raised when the code
dereferences an attribute of `None`, e.g. `None.is_subtype_of`).
-/

/-- Types are identified by an index into the type universe. -/
abbrev TypeId := Nat

/-- Modelled from the spec: `method_named(name)` returns a signature with an ordered
`parameter_types` list (`types.py` is not among the checked sources). -/
structure JavaMethodSig where
  parameter_types : List TypeId
deriving DecidableEq, Repr

/-- Modelled from the spec: a constructor signature with an ordered `param_types` list
(`types.py` is not among the checked sources). -/
structure JavaConstructorSig where
  param_types : List TypeId
deriving DecidableEq, Repr

/-- Modelled from the spec: the per-type data the checker consults on a `JavaType` —
`name`, `is_instantiable`, the method table behind `method_named`, and the single
`constructor` signature (`types.py` is not among the checked sources). -/
structure TypeInfo where
  name : String
  is_instantiable : Bool
  methods : List (String × JavaMethodSig)
  constructor : JavaConstructorSig
deriving DecidableEq, Repr

/-- Modelled from the spec: `method_named(name) -> MethodSignature | absent`. -/
def TypeInfo.method_named (t : TypeInfo) (name : String) : Option JavaMethodSig :=
  (t.methods.find? (fun p => p.1 == name)).map Prod.snd

/-- Modelled from the spec: the type universe collaborator — per-type lookup, the
reflexive-transitive subtype predicate `is_subtype_of`, and the built-in `NULL`
type singleton (`types.py` is not among the checked sources). -/
structure TypeUniverse where
  info : TypeId → TypeInfo
  is_subtype_of : TypeId → TypeId → Bool
  nullId : TypeId

/-- The expression AST of `expressions.py`.

`JavaVariable`, `JavaLiteral`, `JavaNullLiteral`, `JavaAssignment`, `JavaMethodCall`
and `JavaConstructorCall` become the constructors of one inductive type. An
assignment's lhs is a `JavaVariable` (per the class docstring), so its `name` and
`declared_type` fields are inlined. -/
inductive JavaExpression where
  | «variable» (name : String) (declared_type : TypeId)
  | literal (value : String) (type : TypeId)
  | nullLiteral
  | assignment (lhs_name : String) (lhs_declared_type : TypeId) (rhs : JavaExpression)
  | methodCall (receiver : JavaExpression) (method_name : String)
      (args : List JavaExpression)
  | constructorCall (instantiated_type : TypeId) (args : List JavaExpression)

/-- `static_type()`. The base-class body is `pass` (returns `None`); `JavaMethodCall`
does not override it, so a method call's static type is `none`. Every other variant
returns its stored type; `JavaNullLiteral.static_type` returns `JavaBuiltInTypes.NULL`. -/
def static_type (u : TypeUniverse) : JavaExpression → Option TypeId
  | .«variable» _ declared_type => some declared_type
  | .literal _ type => some type
  | .nullLiteral => some u.nullId
  | .assignment _ lhs_declared_type _ => some lhs_declared_type
  | .methodCall _ _ _ => none
  | .constructorCall instantiated_type _ => some instantiated_type

/-- The Python exceptions the checker can raise. `javaTypeError` is the base class
`JavaTypeError` raised directly; the next three are its subclasses declared in
`expressions.py`; `attributeError` is Python's built-in `AttributeError`, raised when
an attribute of `None` is dereferenced (not part of the Java error taxonomy). -/
inductive PyError where
  | javaTypeError (message : String)
  | javaTypeMismatchError (message : String)
  | javaArgumentCountError (message : String)
  | javaIllegalInstantiationError (message : String)
  | attributeError (message : String)
deriving DecidableEq, Repr

/-- Whether the raised exception is a `JavaTypeError` (the base class or any of its
subclasses) — i.e. whether Python's `except JavaTypeError` would catch it. -/
def PyError.is_java_type_error : PyError → Bool
  | .attributeError _ => false
  | _ => true

/-- Whether the raised exception is a proper specialization of `JavaTypeError`, i.e.
one of the three subclasses declared in `expressions.py` (`JavaTypeMismatchError`,
`JavaArgumentCountError`, `JavaIllegalInstantiationError`) rather than the base class. -/
def PyError.is_specialization : PyError → Bool
  | .javaTypeMismatchError _ => true
  | .javaArgumentCountError _ => true
  | .javaIllegalInstantiationError _ => true
  | _ => false

/-- Message of Python's `AttributeError` for `None.is_subtype_of`. -/
def attrErrNoSubtype : String :=
  "\x27NoneType\x27 object has no attribute \x27is_subtype_of\x27"

/-- Message of Python's `AttributeError` for `None.name`. -/
def attrErrNoName : String :=
  "\x27NoneType\x27 object has no attribute \x27name\x27"

/-- Message of the dead `receiver_type is None` branch in `JavaMethodCall.check_types`. -/
def receiverUndefinedMsg : String :=
  "Receiver\x27s type is not defined for method call."

/-- The generator `(str(at.static_type().name) for at in self.args)` used when
formatting the argument-mismatch message: the names of the static types of all
arguments, left to right; dereferencing `.name` on an argument whose static type is
`None` raises `AttributeError`. -/
def arg_type_names (u : TypeUniverse) : List JavaExpression → Except PyError (List String)
  | [] => .ok []
  | a :: rest =>
    match static_type u a with
    | none => .error (.attributeError attrErrNoName)
    | some t =>
      match arg_type_names u rest with
      | .error e => .error e
      | .ok ns => .ok ((u.info t).name :: ns)

/-- The f-string of the `JavaTypeMismatchError` raised on an argument-type mismatch in
`JavaMethodCall.check_types`: it lists the full parameter-type tuple and the full
argument-type tuple. -/
def method_mismatch_message (u : TypeUniverse) (rt : TypeId) (method_name : String)
    (m : JavaMethodSig) (argNames : List String) : String :=
  (u.info rt).name ++ "." ++ method_name ++ "() expects arguments of type (" ++
    String.intercalate ", " (m.parameter_types.map (fun pt => (u.info pt).name)) ++
    "), but got (" ++ String.intercalate ", " argNames ++ ")"

/-- The `for arg, param_type in zip(self.args, method.parameter_types)` loop of
`JavaMethodCall.check_types`. `allArgs` is `self.args`, needed because the mismatch
message enumerates all arguments. `arg_type.is_subtype_of(...)` with `arg_type = None`
raises `AttributeError`. -/
def check_method_args (u : TypeUniverse) (rt : TypeId) (method_name : String)
    (m : JavaMethodSig) (allArgs : List JavaExpression) :
    List JavaExpression → List TypeId → Except PyError Unit
  | [], _ => .ok ()
  | _ :: _, [] => .ok ()
  | a :: as, pt :: pts =>
    match static_type u a with
    | none => .error (.attributeError attrErrNoSubtype)
    | some t =>
      if u.is_subtype_of t pt then
        check_method_args u rt method_name m allArgs as pts
      else
        match arg_type_names u allArgs with
        | .error e => .error e
        | .ok ns => .error (.javaTypeMismatchError (method_mismatch_message u rt method_name m ns))

/-- The `for arg, param_type in zip(self.args, constructor.param_types)` loop of
`JavaConstructorCall.check_types`. Its mismatch message names only the current pair. -/
def check_constructor_args (u : TypeUniverse) (t : TypeId) :
    List JavaExpression → List TypeId → Except PyError Unit
  | [], _ => .ok ()
  | _ :: _, [] => .ok ()
  | a :: as, pt :: pts =>
    match static_type u a with
    | none => .error (.attributeError attrErrNoSubtype)
    | some at_ =>
      if u.is_subtype_of at_ pt then
        check_constructor_args u t as pts
      else
        .error (.javaTypeMismatchError
          ((u.info t).name ++ " constructor expects arguments of type " ++
            (u.info pt).name ++ ", but got " ++ (u.info at_).name))

mutual

/-- `check_types()`, per variant. `JavaVariable.check_types` and
`JavaLiteral.check_types` are `pass`. In `JavaMethodCall.check_types` the guard
`if not self.receiver.static_type(): return` tests Python truthiness; `JavaType`
instances are always truthy, so the test is equivalent to the static type being
`None`, which makes the subsequent `if receiver_type is None: raise` branch dead. -/
def check_types (u : TypeUniverse) : JavaExpression → Except PyError Unit
  | .«variable» _ _ => .ok ()
  | .literal _ _ => .ok ()
  | .nullLiteral => .ok ()
  | .assignment lhs_name lhs_declared_type rhs =>
    match static_type u rhs with
    | none => .error (.attributeError attrErrNoSubtype)
    | some rt =>
      if u.is_subtype_of rt lhs_declared_type then .ok ()
      else
        .error (.javaTypeMismatchError
          ("Cannot assign " ++ (u.info rt).name ++ " to variable " ++ lhs_name ++
            " of type " ++ (u.info lhs_declared_type).name))
  | .methodCall receiver method_name args =>
    if static_type u receiver = none then .ok ()
    else
      match static_type u receiver with
      | none => .error (.javaTypeError receiverUndefinedMsg)
      | some rt =>
        match (u.info rt).method_named method_name with
        | none =>
          .error (.javaTypeError
            ((u.info rt).name ++ " has no method named " ++ method_name))
        | some m =>
          if args.length ≠ m.parameter_types.length then
            .error (.javaArgumentCountError
              ("Wrong number of arguments for " ++ (u.info rt).name ++ "." ++
                method_name ++ "(): expected " ++ toString m.parameter_types.length ++
                ", got " ++ toString args.length))
          else
            check_method_args u rt method_name m args args m.parameter_types
  | .constructorCall instantiated_type args =>
    if !(u.info instantiated_type).is_instantiable then
      .error (.javaIllegalInstantiationError
        ((u.info instantiated_type).name ++ " is not instantiable"))
    else
      let c := (u.info instantiated_type).constructor
      if args.length ≠ c.param_types.length then
        .error (.javaArgumentCountError
          ("Wrong number of arguments for " ++ (u.info instantiated_type).name ++
            " constructor: expected " ++ toString c.param_types.length ++ ", got " ++
            toString args.length))
      else
        match check_constructor_args u instantiated_type args c.param_types with
        | .error e => .error e
        | .ok _ => check_all u args

/-- The trailing `for arg in self.args: arg.check_types()` loop of
`JavaConstructorCall.check_types`: the first raising argument aborts the loop. -/
def check_all (u : TypeUniverse) : List JavaExpression → Except PyError Unit
  | [] => .ok ()
  | a :: rest =>
    match check_types u a with
    | .error e => .error e
    | .ok _ => check_all u rest

end

/-! ## A concrete type universe used to exercise the theorems -/

/-- A concrete `Object` type: instantiable, no methods, zero-argument constructor. -/
def objectInfo : TypeInfo := ⟨"Object", true, [], ⟨[]⟩⟩

/-- A concrete `Point` type: method `getX()` and method `moveTo(double, double)`,
constructor `Point(double, double)`. -/
def pointInfo : TypeInfo :=
  ⟨"Point", true, [("getX", ⟨[]⟩), ("moveTo", ⟨[2, 2]⟩)], ⟨[2, 2]⟩⟩

/-- The primitive `double`: not instantiable, no methods. -/
def doubleInfo : TypeInfo := ⟨"double", false, [], ⟨[]⟩⟩

/-- The built-in `NULL` type: not instantiable, no methods. -/
def nullInfo : TypeInfo := ⟨"null", false, [], ⟨[]⟩⟩

/-- A concrete `String` type. -/
def stringInfo : TypeInfo := ⟨"String", true, [], ⟨[]⟩⟩

/-- A small concrete type universe: `0 = Object`, `1 = Point`, `2 = double`,
`3 = null`, everything else `String`. Subtyping is reflexive, `null` is a subtype of
everything, and `Point` is a subtype of `Object`. -/
def demoU : TypeUniverse where
  info := fun i =>
    match i with
    | 0 => objectInfo
    | 1 => pointInfo
    | 2 => doubleInfo
    | 3 => nullInfo
    | _ => stringInfo
  is_subtype_of := fun a b => a == b || a == 3 || (a == 1 && b == 0)
  nullId := 3

/-- Whether, among the positional argument/parameter pairs compared by the zip loops,
some argument's static type fails the subtype test against its parameter type. Used to
state the claims about the pairwise argument checks. -/
def has_arg_mismatch (u : TypeUniverse) : List JavaExpression → List TypeId → Bool
  | [], _ => false
  | _ :: _, [] => false
  | a :: as, pt :: pts =>
    match static_type u a with
    | none => has_arg_mismatch u as pts
    | some t => !u.is_subtype_of t pt || has_arg_mismatch u as pts

/-! ## Helper lemmas -/

/-- When the argument-name enumeration succeeds, every argument has a defined
static type. -/
lemma static_type_isSome_of_arg_type_names (u : TypeUniverse) :
    ∀ (l : List JavaExpression) (ns : List String), arg_type_names u l = .ok ns →
      ∀ a ∈ l, (static_type u a).isSome := by
  intro l
  induction l with
  | nil => intro ns _ a ha; cases ha
  | cons b rest ih =>
    intro ns h a ha
    rw [arg_type_names] at h
    cases hb : static_type u b with
    | none => rw [hb] at h; cases h
    | some t =>
      rw [hb] at h
      cases ha with
      | head => simp [hb]
      | tail _ hmem =>
        cases hr : arg_type_names u rest with
        | error e => rw [hr] at h; cases h
        | ok ns2 => exact ih ns2 hr a hmem

/-- The only error the argument-name enumeration can raise is the `AttributeError`
for `None.name`. -/
lemma arg_type_names_error_eq (u : TypeUniverse) :
    ∀ (l : List JavaExpression) (e : PyError), arg_type_names u l = .error e →
      e = .attributeError attrErrNoName := by
  intro l
  induction l with
  | nil => intro e h; cases h
  | cons b rest ih =>
    intro e h
    rw [arg_type_names] at h
    cases hb : static_type u b with
    | none => rw [hb] at h; cases h; rfl
    | some t =>
      rw [hb] at h
      cases hr : arg_type_names u rest with
      | error e2 => rw [hr] at h; cases h; exact ih _ hr
      | ok ns => rw [hr] at h; cases h

/-- If every remaining argument has a defined static type and some remaining pair
fails the subtype test, the method-call zip loop raises exactly the
`JavaTypeMismatchError` built from the full tuples over `allArgs`. -/
lemma check_method_args_mismatch_eq (u : TypeUniverse) (rt : TypeId)
    (method_name : String) (m : JavaMethodSig) (allArgs : List JavaExpression)
    (ns : List String) (hns : arg_type_names u allArgs = .ok ns) :
    ∀ (as : List JavaExpression) (pts : List TypeId),
      (∀ a ∈ as, (static_type u a).isSome) →
      has_arg_mismatch u as pts = true →
      check_method_args u rt method_name m allArgs as pts =
        .error (.javaTypeMismatchError (method_mismatch_message u rt method_name m ns)) := by
  intro as
  induction as with
  | nil => intro pts _ hmis; rw [has_arg_mismatch] at hmis; cases hmis
  | cons a rest ih =>
    intro pts hdef hmis
    cases pts with
    | nil => rw [has_arg_mismatch] at hmis; cases hmis
    | cons pt pts =>
      obtain ⟨t, ht⟩ := Option.isSome_iff_exists.mp (hdef a (by simp))
      rw [has_arg_mismatch] at hmis
      rw [ht] at hmis
      rw [check_method_args, ht]
      by_cases hsub : u.is_subtype_of t pt
      · have hrest : has_arg_mismatch u rest pts = true := by
          simpa [hsub] using hmis
        simpa [hsub] using ih pts (fun a ha => hdef a (by simp [ha])) hrest
      · simp [hsub, hns]

/-- If every remaining argument has a defined static type and no remaining pair fails
the subtype test, the method-call zip loop succeeds. -/
lemma check_method_args_ok (u : TypeUniverse) (rt : TypeId) (method_name : String)
    (m : JavaMethodSig) (allArgs : List JavaExpression) :
    ∀ (as : List JavaExpression) (pts : List TypeId),
      (∀ a ∈ as, (static_type u a).isSome) →
      has_arg_mismatch u as pts = false →
      check_method_args u rt method_name m allArgs as pts = .ok () := by
  intro as
  induction as with
  | nil => intro pts _ _; rw [check_method_args]
  | cons a rest ih =>
    intro pts hdef hmis
    cases pts with
    | nil => rw [check_method_args]
    | cons pt pts =>
      obtain ⟨t, ht⟩ := Option.isSome_iff_exists.mp (hdef a (by simp))
      rw [has_arg_mismatch] at hmis
      rw [ht] at hmis
      rw [check_method_args, ht]
      have hsub : u.is_subtype_of t pt := by
        by_contra hs
        simp [Bool.not_eq_true] at hs
        simp [hs] at hmis
      have hrest : has_arg_mismatch u rest pts = false := by
        simpa [hsub] using hmis
      simpa [hsub] using ih pts (fun a ha => hdef a (by simp [ha])) hrest

/-- The method-call zip loop never raises the base `JavaTypeError`: its errors are
`AttributeError` or `JavaTypeMismatchError`. -/
lemma check_method_args_no_base_error (u : TypeUniverse) (rt : TypeId)
    (method_name : String) (m : JavaMethodSig) (allArgs : List JavaExpression) :
    ∀ (as : List JavaExpression) (pts : List TypeId) (s : String),
      check_method_args u rt method_name m allArgs as pts ≠ .error (.javaTypeError s) := by
  intro as
  induction as with
  | nil => intro pts s; rw [check_method_args]; simp
  | cons a rest ih =>
    intro pts s
    cases pts with
    | nil => rw [check_method_args]; simp
    | cons pt pts =>
      rw [check_method_args]
      cases ht : static_type u a with
      | none => simp
      | some t =>
        by_cases hsub : u.is_subtype_of t pt
        · simpa [hsub] using ih pts s
        · cases hn : arg_type_names u allArgs with
          | error e =>
            have := arg_type_names_error_eq u allArgs e hn
            simp [hsub, hn, this]
          | ok ns => simp [hsub, hn]

/-- If every remaining argument has a defined static type and no remaining pair fails
the subtype test, the constructor zip loop succeeds. -/
lemma check_constructor_args_ok (u : TypeUniverse) (t : TypeId) :
    ∀ (as : List JavaExpression) (pts : List TypeId),
      (∀ a ∈ as, (static_type u a).isSome) →
      has_arg_mismatch u as pts = false →
      check_constructor_args u t as pts = .ok () := by
  intro as
  induction as with
  | nil => intro pts _ _; rw [check_constructor_args]
  | cons a rest ih =>
    intro pts hdef hmis
    cases pts with
    | nil => rw [check_constructor_args]
    | cons pt pts =>
      obtain ⟨ta, ht⟩ := Option.isSome_iff_exists.mp (hdef a (by simp))
      rw [has_arg_mismatch] at hmis
      rw [ht] at hmis
      rw [check_constructor_args, ht]
      have hsub : u.is_subtype_of ta pt := by
        by_contra hs
        simp [Bool.not_eq_true] at hs
        simp [hs] at hmis
      have hrest : has_arg_mismatch u rest pts = false := by
        simpa [hsub] using hmis
      simpa [hsub] using ih pts (fun a ha => hdef a (by simp [ha])) hrest

/-- The trailing recursion loop succeeds iff `check_types` succeeds on every element. -/
lemma check_all_ok_iff (u : TypeUniverse) :
    ∀ l : List JavaExpression,
      (check_all u l = .ok () ↔ ∀ a ∈ l, check_types u a = .ok ()) := by
  intro l
  induction l with
  | nil => simp [check_all]
  | cons a rest ih =>
    rw [check_all]
    cases h : check_types u a with
    | error e => simp [h]
    | ok v => cases v; simp [h, ih]

/-- A formatted no-such-method message is never the fixed dead-branch message: the
former contains `" has no method named "` as a substring, the latter does not. -/
lemma noSuchMethodMsg_ne (a b : String) :
    a ++ " has no method named " ++ b ≠ receiverUndefinedMsg := by
  intro h
  have hd : (a ++ " has no method named " ++ b).data = receiverUndefinedMsg.data :=
    congrArg String.data h
  rw [String.data_append, String.data_append] at hd
  have hinf : " has no method named ".data <:+: receiverUndefinedMsg.data :=
    ⟨a.data, b.data, hd⟩
  exact absurd hinf (by decide)

/-! ## Claims about `JavaAssignment` -/

/-- C2: for every `JavaAssignment` whose rhs has a defined static type,
`check_types` succeeds iff `rhs.static_type()` is a subtype of `lhs.static_type()`;
otherwise it raises a `JavaTypeMismatchError` naming the offending value's type, the
target variable's name, and the target's declared type. -/
theorem assignment_check_types_iff (u : TypeUniverse) (lhs_name : String)
    (lt rt : TypeId) (rhs : JavaExpression) (hrt : static_type u rhs = some rt) :
    (check_types u (.assignment lhs_name lt rhs) = .ok () ↔ u.is_subtype_of rt lt = true)
    ∧ (u.is_subtype_of rt lt = false →
        check_types u (.assignment lhs_name lt rhs) =
          .error (.javaTypeMismatchError
            ("Cannot assign " ++ (u.info rt).name ++ " to variable " ++ lhs_name ++
              " of type " ++ (u.info lt).name))) := by
  constructor
  · cases hs : u.is_subtype_of rt lt <;> simp [check_types, hrt, hs]
  · intro hs
    simp [check_types, hrt, hs]

/-- Witness for C2: `x = "hello"` with `x : double` fails, with the message naming
`String`, `x` and `double`. -/
theorem assignment_check_types_iff_witness :
    (check_types demoU (.assignment "x" 2 (.literal "hello" 4)) = .ok () ↔
      demoU.is_subtype_of 4 2 = true)
    ∧ (demoU.is_subtype_of 4 2 = false →
        check_types demoU (.assignment "x" 2 (.literal "hello" 4)) =
          .error (.javaTypeMismatchError
            ("Cannot assign " ++ (demoU.info 4).name ++ " to variable " ++ "x" ++
              " of type " ++ (demoU.info 2).name))) :=
  assignment_check_types_iff demoU "x" 2 4 (.literal "hello" 4) rfl

/-- C10: `JavaAssignment.check_types` with a `JavaMethodCall` rhs (whose static type
is `None`, since `JavaMethodCall` does not override `static_type`) dereferences
`None.is_subtype_of` and fails with Python's `AttributeError`, which is not a
`JavaTypeError` of the documented taxonomy. -/
theorem assignment_methodCall_rhs_attribute_error (u : TypeUniverse) (lhs_name : String)
    (lt : TypeId) (receiver : JavaExpression) (method_name : String)
    (args : List JavaExpression) :
    check_types u (.assignment lhs_name lt (.methodCall receiver method_name args)) =
      .error (.attributeError attrErrNoSubtype)
    ∧ (PyError.attributeError attrErrNoSubtype).is_java_type_error = false :=
  ⟨by simp [check_types, static_type], rfl⟩

/-! ## Claims about `JavaMethodCall` -/

/-- C3: a `JavaMethodCall` whose receiver's static type is absent succeeds vacuously,
whatever the method name and arguments. -/
theorem methodCall_undefined_receiver_ok (u : TypeUniverse) (receiver : JavaExpression)
    (method_name : String) (args : List JavaExpression)
    (h : static_type u receiver = none) :
    check_types u (.methodCall receiver method_name args) = .ok () := by
  simp [check_types, h]

/-- Witness for C3: a call chained on another method call (whose static type is
absent) succeeds even with a bogus method name and arguments. -/
theorem methodCall_undefined_receiver_ok_witness :
    check_types demoU
      (.methodCall (.methodCall (.«variable» "p" 1) "getX" []) "noSuchThing"
        [.«variable» "q" 0]) = .ok () :=
  methodCall_undefined_receiver_ok demoU
    (.methodCall (.«variable» "p" 1) "getX" []) "noSuchThing" [.«variable» "q" 0] rfl

/-! ## Claims about `JavaConstructorCall` -/

/-- C7: a `JavaConstructorCall` on a non-instantiable type raises
`JavaIllegalInstantiationError` naming the type, regardless of the arguments (the
check precedes the arity and argument-type checks). -/
theorem constructorCall_not_instantiable_error (u : TypeUniverse) (t : TypeId)
    (args : List JavaExpression) (h : (u.info t).is_instantiable = false) :
    check_types u (.constructorCall t args) =
      .error (.javaIllegalInstantiationError
        ((u.info t).name ++ " is not instantiable")) := by
  simp [check_types, h]

/-- Witness for C7: `new double(x)` fails with `double is not instantiable` even
though the argument list would not fit the constructor signature either. -/
theorem constructorCall_not_instantiable_error_witness :
    check_types demoU (.constructorCall 2 [.«variable» "x" 0]) =
      .error (.javaIllegalInstantiationError ((demoU.info 2).name ++ " is not instantiable")) :=
  constructorCall_not_instantiable_error demoU 2 [.«variable» "x" 0] rfl

/-- C1 counterexample: `foo.bar()` with `foo : Object` (which has no method `bar`)
raises the base `JavaTypeError` itself, which is not one of the declared
specializations of `JavaTypeError`. -/
theorem methodCall_no_such_method_counterexample :
    check_types demoU (.methodCall (.«variable» "foo" 0) "bar" []) =
      .error (.javaTypeError "Object has no method named bar")
    ∧ (PyError.javaTypeError "Object has no method named bar").is_specialization = false :=
  ⟨rfl, rfl⟩

/-- C1 (amended): for every `JavaMethodCall` whose receiver's static type is defined
but has no method with the given name, `check_types` raises the common `JavaTypeError`
itself (no `NoSuchMethod` subclass exists in the code), with a message naming the
receiver type and the method name. -/
theorem methodCall_no_such_method_error (u : TypeUniverse) (receiver : JavaExpression)
    (method_name : String) (args : List JavaExpression) (rt : TypeId)
    (h1 : static_type u receiver = some rt)
    (h2 : (u.info rt).method_named method_name = none) :
    check_types u (.methodCall receiver method_name args) =
      .error (.javaTypeError
        ((u.info rt).name ++ " has no method named " ++ method_name)) := by
  simp [check_types, h1, h2]

/-- Witness for the amended C1: `p.frob()` with `p : Point` raises the base
`JavaTypeError` naming `Point` and `frob`. -/
theorem methodCall_no_such_method_error_witness :
    check_types demoU (.methodCall (.«variable» "p" 1) "frob" []) =
      .error (.javaTypeError ((demoU.info 1).name ++ " has no method named " ++ "frob")) :=
  methodCall_no_such_method_error demoU (.«variable» "p" 1) "frob" [] 1 rfl rfl

/-- C4: for every `JavaMethodCall` whose method resolves but whose argument count
differs from the resolved method's parameter count, `check_types` raises
`JavaArgumentCountError` reporting expected vs. actual counts — for any argument list
of that length, so the arity check precedes any argument-type comparison. -/
theorem methodCall_arity_error (u : TypeUniverse) (receiver : JavaExpression)
    (method_name : String) (args : List JavaExpression) (rt : TypeId) (m : JavaMethodSig)
    (h1 : static_type u receiver = some rt)
    (h2 : (u.info rt).method_named method_name = some m)
    (h3 : args.length ≠ m.parameter_types.length) :
    check_types u (.methodCall receiver method_name args) =
      .error (.javaArgumentCountError
        ("Wrong number of arguments for " ++ (u.info rt).name ++ "." ++ method_name ++
          "(): expected " ++ toString m.parameter_types.length ++ ", got " ++
          toString args.length)) := by
  simp [check_types, h1, h2, h3]

/-- Witness for C4: `p.getX(p.getX())` — one argument for a zero-parameter method —
raises the arity error even though the argument's static type is undefined (no
argument-type comparison, which would raise `AttributeError`, is reached). -/
theorem methodCall_arity_error_witness :
    check_types demoU
      (.methodCall (.«variable» "p" 1) "getX"
        [.methodCall (.«variable» "p" 1) "getX" []]) =
      .error (.javaArgumentCountError
        ("Wrong number of arguments for " ++ (demoU.info 1).name ++ "." ++ "getX" ++
          "(): expected " ++ toString ([] : List TypeId).length ++ ", got " ++
          toString [JavaExpression.methodCall (.«variable» "p" 1) "getX" []].length)) :=
  methodCall_arity_error demoU (.«variable» "p" 1) "getX"
    [.methodCall (.«variable» "p" 1) "getX" []] 1 ⟨[]⟩ rfl rfl (by decide)

/-- C5: for every `JavaMethodCall` with resolved method, matching arity, and all
argument static types defined, a pairwise subtype failure raises
`JavaTypeMismatchError` whose message lists the full expected parameter-type tuple and
the full actual argument-type tuple. -/
theorem methodCall_arg_mismatch_full_tuples (u : TypeUniverse)
    (receiver : JavaExpression) (method_name : String) (args : List JavaExpression)
    (rt : TypeId) (m : JavaMethodSig) (ns : List String)
    (h1 : static_type u receiver = some rt)
    (h2 : (u.info rt).method_named method_name = some m)
    (h3 : args.length = m.parameter_types.length)
    (h4 : arg_type_names u args = .ok ns)
    (h5 : has_arg_mismatch u args m.parameter_types = true) :
    check_types u (.methodCall receiver method_name args) =
      .error (.javaTypeMismatchError
        ((u.info rt).name ++ "." ++ method_name ++ "() expects arguments of type (" ++
          String.intercalate ", " (m.parameter_types.map (fun pt => (u.info pt).name)) ++
          "), but got (" ++ String.intercalate ", " ns ++ ")")) := by
  have hdef := static_type_isSome_of_arg_type_names u args ns h4
  have hrun := check_method_args_mismatch_eq u rt method_name m args ns h4
    args m.parameter_types hdef h5
  simp [check_types, h1, h2, h3, hrun, method_mismatch_message]

/-- Witness for C5: `p.moveTo("a", 1.0)` against `moveTo(double, double)` — only the
first pair mismatches, yet the message shows both expected types and both actual
types. -/
theorem methodCall_arg_mismatch_full_tuples_witness :
    check_types demoU
      (.methodCall (.«variable» "p" 1) "moveTo" [.literal "a" 4, .literal "1.0" 2]) =
      .error (.javaTypeMismatchError
        ((demoU.info 1).name ++ "." ++ "moveTo" ++ "() expects arguments of type (" ++
          String.intercalate ", " (([2, 2] : List TypeId).map (fun pt => (demoU.info pt).name)) ++
          "), but got (" ++ String.intercalate ", " ["String", "double"] ++ ")")) :=
  methodCall_arg_mismatch_full_tuples demoU (.«variable» "p" 1) "moveTo"
    [.literal "a" 4, .literal "1.0" 2] 1 ⟨[2, 2]⟩ ["String", "double"]
    rfl rfl rfl rfl rfl

/-- C6: `JavaMethodCall.check_types` consults only the static types of the receiver
and arguments: with resolved method, matching arity, and all pairwise subtype checks
passing, it succeeds — with no hypothesis at all on the well-typedness of the receiver
or argument subtrees. -/
theorem methodCall_no_recursion_into_subtrees (u : TypeUniverse)
    (receiver : JavaExpression) (method_name : String) (args : List JavaExpression)
    (rt : TypeId) (m : JavaMethodSig)
    (h1 : static_type u receiver = some rt)
    (h2 : (u.info rt).method_named method_name = some m)
    (h3 : args.length = m.parameter_types.length)
    (h4 : ∀ a ∈ args, (static_type u a).isSome)
    (h5 : has_arg_mismatch u args m.parameter_types = false) :
    check_types u (.methodCall receiver method_name args) = .ok () := by
  have hrun := check_method_args_ok u rt method_name m args args m.parameter_types h4 h5
  simp [check_types, h1, h2, h3, hrun]

/-- Witness for C6: a method call whose receiver and first argument are both
ill-typed assignments (each raises `JavaTypeMismatchError` on its own) still
succeeds, because only static types are consulted. -/
theorem methodCall_no_recursion_into_subtrees_witness :
    check_types demoU
      (.methodCall (.assignment "p" 1 (.literal "s" 4)) "moveTo"
        [.assignment "d" 2 (.literal "s" 4), .literal "1.0" 2]) = .ok ()
    ∧ check_types demoU (.assignment "p" 1 (.literal "s" 4)) =
        .error (.javaTypeMismatchError "Cannot assign String to variable p of type Point")
    ∧ check_types demoU (.assignment "d" 2 (.literal "s" 4)) =
        .error (.javaTypeMismatchError "Cannot assign String to variable d of type double") :=
  ⟨methodCall_no_recursion_into_subtrees demoU (.assignment "p" 1 (.literal "s" 4))
      "moveTo" [.assignment "d" 2 (.literal "s" 4), .literal "1.0" 2] 1 ⟨[2, 2]⟩
      rfl rfl rfl (by decide) rfl,
    rfl, rfl⟩

/-- C8: for every `JavaConstructorCall` on an instantiable type with matching arity,
all argument static types defined, and all pairwise subtype checks passing,
`check_types` succeeds iff `check_types` succeeds on every argument subtree — so an
ill-typed composite argument makes the whole call fail. -/
theorem constructorCall_recurses_into_args (u : TypeUniverse) (t : TypeId)
    (args : List JavaExpression)
    (h1 : (u.info t).is_instantiable = true)
    (h2 : args.length = (u.info t).constructor.param_types.length)
    (h3 : ∀ a ∈ args, (static_type u a).isSome)
    (h4 : has_arg_mismatch u args (u.info t).constructor.param_types = false) :
    (check_types u (.constructorCall t args) = .ok () ↔
      ∀ a ∈ args, check_types u a = .ok ()) := by
  have hrun := check_constructor_args_ok u t args (u.info t).constructor.param_types h3 h4
  rw [check_types]
  simp [h1, h2, hrun, check_all_ok_iff]

/-- Witness for C8: `new Point(1.0, new double())` — the second argument has the right
static type but is itself ill-typed (`double` is not instantiable), and the whole call
fails with that inner error. -/
theorem constructorCall_recurses_into_args_witness :
    (check_types demoU (.constructorCall 1 [.literal "1.0" 2, .constructorCall 2 []]) =
        .ok () ↔
      ∀ a ∈ [JavaExpression.literal "1.0" 2, JavaExpression.constructorCall 2 []],
        check_types demoU a = .ok ())
    ∧ check_types demoU (.constructorCall 1 [.literal "1.0" 2, .constructorCall 2 []]) =
        .error (.javaIllegalInstantiationError "double is not instantiable") :=
  ⟨constructorCall_recurses_into_args demoU 1
      [.literal "1.0" 2, .constructorCall 2 []] rfl rfl (by decide) rfl,
    rfl⟩

/-- C9: the `receiver_type is None` branch of `JavaMethodCall.check_types` is dead:
no method call ever produces its error — a `None` static type is caught by the
earlier truthiness guard, which returns successfully. -/
theorem methodCall_none_branch_unreachable (u : TypeUniverse)
    (receiver : JavaExpression) (method_name : String) (args : List JavaExpression) :
    check_types u (.methodCall receiver method_name args) ≠
      .error (.javaTypeError receiverUndefinedMsg) := by
  rw [check_types]
  cases hst : static_type u receiver with
  | none => simp
  | some rt =>
    simp only [reduceCtorEq, if_false]
    cases hm : (u.info rt).method_named method_name with
    | none =>
      simp only []
      intro h
      exact noSuchMethodMsg_ne (u.info rt).name method_name
        (by injection h with h2; injection h2)
    | some m =>
      by_cases hlen : args.length = m.parameter_types.length
      · simp only [hlen, ne_eq, not_true_eq_false, if_false]
        exact check_method_args_no_base_error u rt method_name m args
          args m.parameter_types receiverUndefinedMsg
      · simp [hlen]
